import Mathlib

/-!
A verification development for `apicov`, a runtime type-coverage tracer.

The definitions below are a shallow embedding of the repository's Python
sources:

* `src/apicov/type_annotation.py` — the schema tree (`TypeAnnot`, source class
  `TypeAnnotation`; the class names are shortened to `...Annot` here), match
  witnesses (`TypeMatch`), coverage tallies (`TypeCoverage`) and the parser
  (`get_annot`, source `get_annotation`);
* `src/apicov/func_tracer.py` — overloads and the per-function tracer
  (`Overload`, `FuncTracer`);
* `src/apicov/sysmon.py` — the `sys.monitoring` instrumentation controller
  (`Tracer`, its three event callbacks and `__exit__`).

Python runtime values are modelled by `Value`, Python classes by `PyType`
(with `Value.classes` giving the method-resolution-order list that
`isinstance` consults), and Python exceptions by `PyExc`, where only
`MonitoringCallbackError` falls outside the `Exception` class (it derives
`BaseException` directly in the source).
-/

/-- A Python class, as far as `isinstance` checks in the source need one. -/
inductive PyType where
  | int
  | bool
  | str
  | float
  | object
  | noneType
  | cls (name : String)
  deriving DecidableEq, Repr

/-- `__name__` of a class. -/
def PyType.nameStr : PyType → String
  | .int => "int"
  | .bool => "bool"
  | .str => "str"
  | .float => "float"
  | .object => "object"
  | .noneType => "NoneType"
  | .cls n => n

/-- A Python runtime value: `None`, an `int`, a `bool`, a `str`, or an
instance of user classes (listed base-classes-last, `object` implicit). -/
inductive Value where
  | pyNone
  | intV (n : Int)
  | boolV (b : Bool)
  | strV (s : String)
  | objV (bases : List PyType)
  deriving DecidableEq, Repr

/-- The classes a value is an instance of (its MRO). `bool` is a subclass of
`int` in Python, so a `bool` value is an instance of `int` as well. -/
def Value.classes : Value → List PyType
  | .pyNone => [.noneType, .object]
  | .intV _ => [.int, .object]
  | .boolV _ => [.bool, .int, .object]
  | .strV _ => [.str, .object]
  | .objV bases => bases ++ [.object]

/-- Python's `isinstance(v, t)` for the modelled classes. -/
def isinst (v : Value) (t : PyType) : Bool :=
  v.classes.contains t

/-- Python's `repr` of a value, used by `FuncTracer` for the diagnostic
rendering of unmatched calls. -/
def Value.reprStr : Value → String
  | .pyNone => "None"
  | .intV n => toString n
  | .boolV b => if b then "True" else "False"
  | .strV s => "\x27" ++ s ++ "\x27"
  | .objV bases => "<" ++ (bases.headD .object).nameStr ++ " object>"

/-- A Python exception. `monitoringCallbackError` models the source's
`MonitoringCallbackError`, which derives `BaseException` (not `Exception`) and
carries the causing exception (`raise ... from e`); `progExc cls msg` is an
ordinary program-level exception of class `cls`. -/
inductive PyExc where
  | monitoringCallbackError (cause : PyExc)
  | indexError
  | assertionError (msg : String)
  | progExc (cls : String) (msg : String)
  deriving DecidableEq, Repr

/-- `isinstance(e, Exception)`: every modelled exception except
`MonitoringCallbackError` derives `Exception`. -/
def PyExc.isException : PyExc → Bool
  | .monitoringCallbackError _ => false
  | _ => true

/-- `isinstance(e, MonitoringCallbackError)`. -/
def PyExc.isMCE : PyExc → Bool
  | .monitoringCallbackError _ => true
  | _ => false

/-- Python's `repr` of an exception, used by `FuncTracer` to store the
unwound exception in a hashable, deduplicatable form. -/
def PyExc.reprStr : PyExc → String
  | .monitoringCallbackError _ => "MonitoringCallbackError()"
  | .indexError => "IndexError()"
  | .assertionError m => "AssertionError(" ++ m ++ ")"
  | .progExc c m => c ++ "(" ++ m ++ ")"

/-- The schema tree: the `TypeAnnotation` class hierarchy of
`type_annotation.py`, one constructor per concrete subclass. -/
inductive TypeAnnot where
  | noAnnot
  | selfAnnot (bound_class : PyType)
  | noneAnnot
  | anyAnnot
  | neverAnnot
  | instanceAnnot (typ : PyType)
  | unionAnnot (options : List TypeAnnot)
  | unknownAnnot (label : String)

mutual

/-- Structural equality of schema trees (the equality relation under which
parse determinism is stated). -/
def TypeAnnot.beq : TypeAnnot → TypeAnnot → Bool
  | .noAnnot, .noAnnot => true
  | .selfAnnot a, .selfAnnot b => a = b
  | .noneAnnot, .noneAnnot => true
  | .anyAnnot, .anyAnnot => true
  | .neverAnnot, .neverAnnot => true
  | .instanceAnnot a, .instanceAnnot b => a = b
  | .unionAnnot as, .unionAnnot bs => TypeAnnot.beqList as bs
  | .unknownAnnot a, .unknownAnnot b => a = b
  | _, _ => false

/-- `TypeAnnot.beq`, lifted pointwise to lists of union members. -/
def TypeAnnot.beqList : List TypeAnnot → List TypeAnnot → Bool
  | [], [] => true
  | a :: as, b :: bs => TypeAnnot.beq a b && TypeAnnot.beqList as bs
  | _, _ => false

end

theorem TypeAnnot.beq_iff_all :
    (∀ a b : TypeAnnot, (TypeAnnot.beq a b = true) ↔ a = b) ∧
    (∀ as bs : List TypeAnnot, (TypeAnnot.beqList as bs = true) ↔ as = bs) := by
  refine TypeAnnot.beq.mutual_induct
    (fun a b => (TypeAnnot.beq a b = true) ↔ a = b)
    (fun as bs => (TypeAnnot.beqList as bs = true) ↔ as = bs)
    ?_ ?_ ?_ ?_ ?_ ?_ ?_ ?_ ?_ ?_ ?_ ?_
  · simp [TypeAnnot.beq]
  · intro a b; simp [TypeAnnot.beq]
  · simp [TypeAnnot.beq]
  · simp [TypeAnnot.beq]
  · simp [TypeAnnot.beq]
  · intro a b; simp [TypeAnnot.beq]
  · intro as bs ih; simpa [TypeAnnot.beq] using ih
  · intro a b; simp [TypeAnnot.beq]
  · intro t x h1 h2 h3 h4 h5 h6 h7 h8
    cases t <;> cases x <;>
      first
      | exact ((h1 rfl rfl)).elim
      | exact ((h2 _ _ rfl rfl)).elim
      | exact ((h3 rfl rfl)).elim
      | exact ((h4 rfl rfl)).elim
      | exact ((h5 rfl rfl)).elim
      | exact ((h6 _ _ rfl rfl)).elim
      | exact ((h7 _ _ rfl rfl)).elim
      | exact ((h8 _ _ rfl rfl)).elim
      | simp [TypeAnnot.beq]
  · simp [TypeAnnot.beqList]
  · intro a as b bs ih1 ih2; simp [TypeAnnot.beqList, ih1, ih2]
  · intro t x h1 h2
    cases t <;> cases x
    · exact ((h1 rfl rfl)).elim
    · simp [TypeAnnot.beqList]
    · simp [TypeAnnot.beqList]
    · exact ((h2 _ _ _ _ rfl rfl)).elim

instance instDecEqTypeAnnot : DecidableEq TypeAnnot := fun a b =>
  decidable_of_iff _ (TypeAnnot.beq_iff_all.1 a b)

/-- A match witness: the `TypeMatch` objects of `type_annotation.py`. Each
singleton `_MATCH` object is one constructor; `InstanceAnnotation.Match`
carries its type and `UnionAnnotation.Match` carries the matched option and
the option's own witness, exactly as the frozen dataclasses do. -/
inductive TypeMatch where
  | noAnnotMatch
  | selfMatch
  | noneMatch
  | anyMatch
  | neverMatch
  | instanceMatch (typ : PyType)
  | unionMatch (option : TypeAnnot) (m : TypeMatch)
  | unknownMatch
  deriving DecidableEq

/-- `TypeCoverage`: a `(hits, total)` pair (`type_annotation.py`). -/
structure TypeCoverage where
  hits : Nat
  total : Nat
  deriving DecidableEq, Repr

/-- `TypeCoverage.ratio`: `hits / total`, or `1.0` if `total` is zero. -/
def TypeCoverage.ratio (c : TypeCoverage) : ℚ :=
  if 0 < c.total then (c.hits : ℚ) / (c.total : ℚ) else 1

/-- `TypeCoverage.__mul__`: element-wise product. -/
def TypeCoverage.mul (a b : TypeCoverage) : TypeCoverage :=
  ⟨a.hits * b.hits, a.total * b.total⟩

/-- `TypeCoverage.__add__`: element-wise sum. -/
def TypeCoverage.add (a b : TypeCoverage) : TypeCoverage :=
  ⟨a.hits + b.hits, a.total + b.total⟩

mutual

/-- The `match` method of each `TypeAnnotation` subclass. `NoAnnotation`,
`AnyAnnotation` and `UnknownAnnotation` match everything; `NoneAnnotation`
matches only `None`; `NeverAnnotation` matches nothing; `SelfAnnotation` and
`InstanceAnnotation` do an `isinstance` check; `UnionAnnotation` tries its
options in declared order. -/
def TypeAnnot.matchValue : TypeAnnot → Value → Option TypeMatch
  | .noAnnot, _ => some .noAnnotMatch
  | .selfAnnot bound, v => if isinst v bound then some .selfMatch else none
  | .noneAnnot, v => if v = .pyNone then some .noneMatch else none
  | .anyAnnot, _ => some .anyMatch
  | .neverAnnot, _ => none
  | .instanceAnnot t, v => if isinst v t then some (.instanceMatch t) else none
  | .unionAnnot opts, v => matchOptions opts v
  | .unknownAnnot _, _ => some .unknownMatch

/-- The loop body of `UnionAnnotation.match`: try each option in order,
return the first success wrapped in a `UnionAnnotation.Match`. -/
def matchOptions : List TypeAnnot → Value → Option TypeMatch
  | [], _ => none
  | o :: rest, v =>
    match o.matchValue v with
    | some m => some (.unionMatch o m)
    | none => matchOptions rest v

end

/-- The `match_unwind` method: the base class returns `None`; only
`NoAnnotation` and `NeverAnnotation` override it to accept an unwind. -/
def TypeAnnot.match_unwind : TypeAnnot → PyExc → Option TypeMatch
  | .noAnnot, _ => some .noAnnotMatch
  | .neverAnnot, _ => some .neverMatch
  | _, _ => none

/-- The `analyze_coverage` method. `ms` stands for the Python `set` of
witnesses (a duplicate-free collection, modelled as a list and deduplicated
where its size is taken); the base class reports `(1 if matches else 0, 1)`,
`UnionAnnotation` reports `(len(matches), len(options))`, and
`NeverAnnotation` distinguishes return position (`(1 if matches else 0, 1)`)
from parameter position (`(0, 0)`). -/
def TypeAnnot.analyze_coverage : TypeAnnot → List TypeMatch → Bool → TypeCoverage
  | .neverAnnot, ms, is_return =>
    if is_return then ⟨if ms.isEmpty then 0 else 1, 1⟩ else ⟨0, 0⟩
  | .unionAnnot opts, ms, _ => ⟨ms.dedup.length, opts.length⟩
  | _, ms, _ => ⟨if ms.isEmpty then 0 else 1, 1⟩

/-- A Python annotation value, as `get_annotation` receives one: the literal
`None`, a class (`typeA`), `typing.Any`, `typing.Never`, `typing.NoReturn`,
`typing.Self`, a union, or any other object whose `str()` is the given
string (`isinstance(None, ·)` raises `TypeError` for those). -/
inductive Annot where
  | pyNone
  | typeA (t : PyType)
  | anyA
  | neverA
  | noReturnA
  | selfA
  | unionA (args : List Annot)
  | other (strOf : String)

mutual

/-- `get_annotation` (`type_annotation.py`): recognize, in the source's
order, `None`/`NoneType`, `Any`, `Never`/`NoReturn`, unions (recursing into
`get_args`), then try `isinstance(None, annotation)` — which succeeds for a
class, giving `InstanceAnnotation`, and raises `TypeError` otherwise, giving
the `UnknownAnnotation` fallback. -/
def get_annot : Annot → TypeAnnot
  | .pyNone => .noneAnnot
  | .typeA .noneType => .noneAnnot
  | .anyA => .anyAnnot
  | .neverA => .neverAnnot
  | .noReturnA => .neverAnnot
  | .unionA args => .unionAnnot (get_annot_list args)
  | .typeA t => .instanceAnnot t
  | .selfA => .unknownAnnot "typing.Self"
  | .other s => .unknownAnnot s

/-- `map get_annot` over a union's arguments (`get_args(annotation)`). -/
def get_annot_list : List Annot → List TypeAnnot
  | [] => []
  | a :: rest => get_annot a :: get_annot_list rest

end

/-- `annotation is Self`: identity test against the `typing.Self` marker. -/
def isSelfMarker : Option Annot → Bool
  | some .selfA => true
  | _ => false

/-- A declared parameter (`inspect.Parameter`): its name and its annotation,
`none` standing for `inspect.Parameter.empty`. -/
structure Param where
  name : String
  annot : Option Annot

/-- A callable's introspected signature (`inspect.signature`): parameters in
declaration order and the return annotation, `none` standing for
`inspect.Signature.empty`. -/
structure PyFunc where
  params : List Param
  ret : Option Annot

/-- `Overload._get_param_annotation`: the `Self` marker, or a first parameter
named `self`, resolves to `SelfAnnotation(encapsulating_class)` when an
encapsulating class is known; an absent annotation gives `NoAnnotation`;
anything else goes through `get_annotation`. -/
def getParamAnnot (index : Nat) (param : Param) (encl : Option PyType) : TypeAnnot :=
  match encl with
  | some c =>
    if isSelfMarker param.annot || (index == 0 && param.name == "self") then
      .selfAnnot c
    else
      match param.annot with
      | none => .noAnnot
      | some a => get_annot a
  | none =>
    match param.annot with
    | none => .noAnnot
    | some a => get_annot a

/-- `Overload._get_return_annotation`. -/
def getReturnAnnot (annot : Option Annot) (encl : Option PyType) : TypeAnnot :=
  match encl, annot with
  | some c, some .selfA => .selfAnnot c
  | _, none => .noAnnot
  | _, some a => get_annot a

/-- `Overload` (`func_tracer.py`): the signature's parameter names plus the
parsed parameter and return schemas. -/
structure Overload where
  params : List String
  param_annots : List TypeAnnot
  return_annot : TypeAnnot
  deriving DecidableEq

/-- `Overload.from_callable`. -/
def Overload.from_callable (f : PyFunc) (encl : Option PyType) : Overload :=
  ⟨f.params.map (·.name),
   f.params.enum.map fun ip => getParamAnnot ip.1 ip.2 encl,
   getReturnAnnot f.ret encl⟩

/-- A code object's identity (`CodeType`): the attributes the tracer reads. -/
structure Code where
  filename : String
  qualname : String
  codeId : Nat
  deriving DecidableEq

/-- A call frame: its code object and its local variables (which, at the
start of a call, are exactly the bound parameters). -/
structure Frame where
  f_code : Code
  f_locals : List (String × Value)

/-- `frame.f_locals[name]` for a bound parameter name. -/
def Frame.getLocal (f : Frame) (name : String) : Value :=
  ((f.f_locals.find? (·.1 == name)).map (·.2)).getD .pyNone

/-- The loop of `Overload.match`: zip parameter names with their schemas,
match each against the correspondingly-named local, and stop at the first
failing parameter. -/
def matchParamList : List (String × TypeAnnot) → Frame → Option (List TypeMatch)
  | [], _ => some []
  | (name, ann) :: rest, f =>
    match ann.matchValue (f.getLocal name) with
    | none => none
    | some m => (matchParamList rest f).map (m :: ·)

/-- `Overload.match`: all parameters must match, giving the tuple of their
witnesses; any failing parameter makes the whole overload fail. -/
def Overload.matchFrame (o : Overload) (f : Frame) : Option (List TypeMatch) :=
  matchParamList (o.params.zip o.param_annots) f

/-- One record entry of a matched call:
`(parameter witnesses, return/unwind witness, exception repr if unwind)`. -/
abbrev CallEntry := List TypeMatch × Option TypeMatch × Option String

/-- `FuncTracer` (`func_tracer.py`): for each overload, the insertion-ordered
deduplicated set of matched call entries (a Python `dict` with `None`
values), plus the unmatched bucket of
`(rendered args, "return" | "unwind", rendered outcome)` triples. -/
structure FuncTracer where
  matched_calls : List (Overload × List CallEntry)
  unmatched_calls : List (String × String × String)
  deriving DecidableEq

/-- `FuncTracer.from_callable`: one empty record per declared overload
(`get_overloads(func) or [func]`, here given as the nonempty list of
signatures). -/
def FuncTracer.from_callable (overloads : List PyFunc) (encl : Option PyType) : FuncTracer :=
  ⟨overloads.map fun f => (Overload.from_callable f encl, []), []⟩

/-- `FuncTracer.StartKey`: either the matched overload with its parameter
witnesses, or (`None`, rendered argument string) when no overload matched. -/
inductive StartKey where
  | matched (overload : Overload) (ms : List TypeMatch)
  | unmatched (args_str : String)
  deriving DecidableEq

/-- The overload-selection loop of `FuncTracer.on_start`: first declared
overload whose every parameter matches. -/
def selectOverload : List Overload → Frame → Option (Overload × List TypeMatch)
  | [], _ => none
  | o :: rest, f =>
    match o.matchFrame f with
    | some ms => some (o, ms)
    | none => selectOverload rest f

/-- `", ".join(f"{k}={v!r}" for k, v in frame.f_locals.items())`. -/
def renderArgs (f : Frame) : String :=
  String.intercalate ", " (f.f_locals.map fun kv => kv.1 ++ "=" ++ kv.2.reprStr)

/-- `self.matched_calls.keys()`: the declared overloads, in declaration
(insertion) order. -/
def FuncTracer.overloads (ft : FuncTracer) : List Overload :=
  ft.matched_calls.map (·.1)

/-- `FuncTracer.on_start`: try the overloads in declaration order; if none
matches, return the fallback key carrying the rendered arguments. -/
def FuncTracer.on_start (ft : FuncTracer) (frame : Frame) : StartKey :=
  match selectOverload ft.overloads frame with
  | some om => .matched om.1 om.2
  | none => .unmatched (renderArgs frame)

/-- `d[k] = None` on a `dict` used as an insertion-ordered set: adding a key
that is already present leaves the dict unchanged. -/
def setInsert {α : Type} [DecidableEq α] (l : List α) (x : α) : List α :=
  if x ∈ l then l else l ++ [x]

/-- `self.matched_calls[overload][entry] = None`: find the overload's record
and insert the entry; `none` models the `KeyError` on an absent overload. -/
def recordMatched (mc : List (Overload × List CallEntry)) (o : Overload) (e : CallEntry) :
    Option (List (Overload × List CallEntry)) :=
  match mc with
  | [] => none
  | (o', rec) :: rest =>
    if o' = o then some ((o', setInsert rec e) :: rest)
    else (recordMatched rest o e).map ((o', rec) :: ·)

/-- `FuncTracer.on_return`: match the return value against the overload's
return schema and record `(matches, return_match, None)`, or record into the
unmatched bucket with rendered text. -/
def FuncTracer.on_return (ft : FuncTracer) (key : StartKey) (retval : Value) :
    Except PyExc FuncTracer :=
  match key with
  | .matched o ms =>
    match recordMatched ft.matched_calls o (ms, o.return_annot.matchValue retval, none) with
    | some mc => .ok { ft with matched_calls := mc }
    | none => .error (.progExc "KeyError" "overload not in matched_calls")
  | .unmatched args_str =>
    .ok { ft with
          unmatched_calls := setInsert ft.unmatched_calls (args_str, "return", retval.reprStr) }

/-- `FuncTracer.on_unwind`: match the exception via `match_unwind` and record
`(matches, return_match, repr(exception))`, or record into the unmatched
bucket. -/
def FuncTracer.on_unwind (ft : FuncTracer) (key : StartKey) (exception : PyExc) :
    Except PyExc FuncTracer :=
  match key with
  | .matched o ms =>
    match recordMatched ft.matched_calls o (ms, o.return_annot.match_unwind exception, some exception.reprStr) with
    | some mc => .ok { ft with matched_calls := mc }
    | none => .error (.progExc "KeyError" "overload not in matched_calls")
  | .unmatched args_str =>
    .ok { ft with
          unmatched_calls := setInsert ft.unmatched_calls (args_str, "unwind", exception.reprStr) }

/-- `Fullname` (`sysmon.py`): module name plus qualified name. -/
structure Fullname where
  module : String
  qualname : String
  deriving DecidableEq

/-- The class of a Python exception (what `type(e)`/`exc_type` denotes). -/
inductive PyExcClass where
  | monitoringCallbackErrorClass
  | indexErrorClass
  | assertionErrorClass
  | progClass (name : String)
  deriving DecidableEq, Repr

/-- `type(e)` for the modelled exceptions. -/
def PyExc.classOf : PyExc → PyExcClass
  | .monitoringCallbackError _ => .monitoringCallbackErrorClass
  | .indexError => .indexErrorClass
  | .assertionError _ => .assertionErrorClass
  | .progExc c _ => .progClass c

/-- The host environment and injected hooks of the generic `Tracer[FT]`:
the `should_trace` predicate and the `FuncTracer` protocol methods (all
Python callables, so each may raise), plus the host-runtime reflection the
controller uses (`sys._getframemodulename`, `sys._getframe`, and the
`sys.modules`/`getattr`/`callable`/`get_func_tracer` chain of
`_new_func_tracer`, combined into `resolveObj`). -/
structure Env (FT : Type) (Key : Type) where
  should_trace : String → Except PyExc Bool
  on_start : FT → Frame → Except PyExc Key
  on_return : FT → Option Key → Value → Except PyExc Unit
  on_unwind : FT → Option Key → PyExc → Except PyExc Unit
  getModuleName : Code → Option String
  frameOf : Code → Frame
  resolveObj : Fullname → Except PyExc (Option FT)

/-- The state of the `sysmon.Tracer`: the code objects of its own `__enter__`
and `__exit__` methods (used for the self-tracing skips), the claimed tool
id, and the three bookkeeping structures. -/
structure Tracer (FT : Type) (Key : Type) where
  enterCode : Code
  exitCode : Code
  tool_id : Nat
  call_stack : List (Code × Option FT × Option Key)
  known_codes : List (Code × Option FT)
  traced_funcs : List (Fullname × FT)

/-- Dictionary lookup by key on an association list. -/
def assocFind {α β : Type} [BEq α] (l : List (α × β)) (k : α) : Option β :=
  (l.find? (·.1 == k)).map (·.2)

/-- Dictionary assignment `d[k] = v` on an association list. -/
def assocSet {α β : Type} [BEq α] (l : List (α × β)) (k : α) (v : β) : List (α × β) :=
  if l.any (·.1 == k) then l.map fun kv => if kv.1 == k then (k, v) else kv
  else l ++ [(k, v)]

/-- `Tracer._new_func_tracer`: reuse the tracer of a recurring fullname, else
resolve the object and build one; any `Exception` in the resolution chain is
swallowed (`except Exception: pass`) and yields `None`. -/
def newFuncTracer {FT Key : Type} (env : Env FT Key) (t : Tracer FT Key)
    (fullname : Fullname) : Except PyExc (Option FT) :=
  match assocFind t.traced_funcs fullname with
  | some ft => .ok (some ft)
  | none =>
    match env.resolveObj fullname with
    | .ok ft? => .ok ft?
    | .error e => if e.isException then .ok none else .error e

/-- `Tracer._start_callback_inner`: on first sight of a code object, resolve
it to a `FuncTracer` (or cache `None`); then call `on_start` if it is traced,
and push `(code, tracer, key)` onto the call stack. -/
def startCallbackInner {FT Key : Type} (env : Env FT Key) (t : Tracer FT Key)
    (code : Code) : Except PyExc (Tracer FT Key) := do
  let t ←
    if (assocFind t.known_codes code).isSome then pure t
    else
      match env.getModuleName code with
      | none => pure { t with known_codes := t.known_codes ++ [(code, none)] }
      | some m => do
        let fullname : Fullname := ⟨m, code.qualname⟩
        let ft? ← newFuncTracer env t fullname
        let t :=
          match ft? with
          | some ft => { t with traced_funcs := assocSet t.traced_funcs fullname ft }
          | none => t
        pure { t with known_codes := t.known_codes ++ [(code, ft?)] }
  let ft? := (assocFind t.known_codes code).getD none
  let key ←
    match ft? with
    | none => pure (none : Option Key)
    | some ft => do
      let frame := env.frameOf code
      if frame.f_code ≠ code then throw (.assertionError "frame.f_code is code")
      else do
        let k ← env.on_start ft frame
        pure (some k)
  pure { t with call_stack := t.call_stack ++ [(code, ft?, key)] }

/-- The `try`/`except Exception as e: raise MonitoringCallbackError from e`
wrapper shared by `_start_callback` and `_return_callback`. Only errors of
class `Exception` are caught; `BaseException`-only errors pass through. -/
def wrapCallback {α : Type} (r : Except PyExc α) : Except PyExc α :=
  match r with
  | .ok a => .ok a
  | .error e => if e.isException then .error (.monitoringCallbackError e) else .error e

/-- The body of `Tracer._start_callback`: skip the tracer's own `__exit__`
code and excluded files, else run the inner handler. -/
def startCallbackBody {FT Key : Type} (env : Env FT Key) (t : Tracer FT Key)
    (code : Code) : Except PyExc (Tracer FT Key) := do
  if code = t.exitCode then pure t
  else do
    let st ← env.should_trace code.filename
    if st then startCallbackInner env t code else pure t

/-- `Tracer._start_callback`: the body, with `Exception`s re-raised as
`MonitoringCallbackError`. -/
def startCallback {FT Key : Type} (env : Env FT Key) (t : Tracer FT Key)
    (code : Code) : Except PyExc (Tracer FT Key) :=
  wrapCallback (startCallbackBody env t code)

/-- `Tracer._return_callback_inner`: pop the call stack (`IndexError` when
empty), assert the popped code is the event's code, and delegate to
`on_return` when the call was traced. -/
def returnCallbackInner {FT Key : Type} (env : Env FT Key) (t : Tracer FT Key)
    (code : Code) (retval : Value) : Except PyExc (Tracer FT Key) := do
  match t.call_stack.getLast? with
  | none => throw PyExc.indexError
  | some entry =>
    let t := { t with call_stack := t.call_stack.dropLast }
    if entry.1 ≠ code then throw (.assertionError "mismatched start and return events")
    else
      match entry.2.1 with
      | some ft => do
        env.on_return ft entry.2.2 retval
        pure t
      | none => pure t

/-- The body of `Tracer._return_callback`: skip the tracer's own `__enter__`
code and excluded files, else run the inner handler. -/
def returnCallbackBody {FT Key : Type} (env : Env FT Key) (t : Tracer FT Key)
    (code : Code) (retval : Value) : Except PyExc (Tracer FT Key) := do
  if code = t.enterCode then pure t
  else do
    let st ← env.should_trace code.filename
    if st then returnCallbackInner env t code retval else pure t

/-- `Tracer._return_callback`: the body, with `Exception`s re-raised as
`MonitoringCallbackError`. -/
def returnCallback {FT Key : Type} (env : Env FT Key) (t : Tracer FT Key)
    (code : Code) (retval : Value) : Except PyExc (Tracer FT Key) :=
  wrapCallback (returnCallbackBody env t code retval)

/-- The pop-assert-delegate part of `Tracer._unwind_callback`. -/
def unwindCallbackInner {FT Key : Type} (env : Env FT Key) (t : Tracer FT Key)
    (code : Code) (exception : PyExc) : Except PyExc (Tracer FT Key) := do
  match t.call_stack.getLast? with
  | none => throw PyExc.indexError
  | some entry =>
    let t := { t with call_stack := t.call_stack.dropLast }
    if entry.1 ≠ code then throw (.assertionError "mismatched start and unwind events")
    else
      match entry.2.1 with
      | some ft => do
        env.on_unwind ft entry.2.2 exception
        pure t
      | none => pure t

/-- `Tracer._unwind_callback`: skip when the propagating exception is the
controller's own `MonitoringCallbackError`, apply the file filter, then pop,
assert and delegate. Unlike the start and return callbacks, this one has no
`try`/`except` wrapper in the source. -/
def unwindCallback {FT Key : Type} (env : Env FT Key) (t : Tracer FT Key)
    (code : Code) (exception : PyExc) : Except PyExc (Tracer FT Key) := do
  if exception.isMCE then pure t
  else do
    let st ← env.should_trace code.filename
    if st then unwindCallbackInner env t code exception else pure t

/-- A call into `sys.monitoring` made during teardown. -/
inductive MonOp where
  | setEventsNone (tool_id : Nat)
  | freeToolId (tool_id : Nat)
  deriving DecidableEq, Repr

/-- `Tracer.__exit__`: always emit `set_events(tool_id, NO_EVENTS)` and
`free_tool_id(tool_id)` (in that order), then — unless `exc_type` is
`MonitoringCallbackError` — assert the call stack is empty. The result pairs
the emitted `sys.monitoring` calls with the assert's outcome. -/
def tracerExit {FT Key : Type} (t : Tracer FT Key) (exc_type : Option PyExcClass) :
    List MonOp × Except PyExc Unit :=
  ([.setEventsNone t.tool_id, .freeToolId t.tool_id],
   if exc_type ≠ some .monitoringCallbackErrorClass then
     if t.call_stack.isEmpty then .ok () else .error (.assertionError "call stack not empty")
   else .ok ())

theorem get_annot_list_eq_map : ∀ as : List Annot, get_annot_list as = as.map get_annot
  | [] => rfl
  | a :: rest => by simp [get_annot_list, get_annot_list_eq_map rest]

/-- C6: Coverage Tally algebra: the ratio of `(h, t)` is `h / t` when
`t > 0` and `1.0` when `t = 0`; products and sums of tallies are
element-wise. -/
theorem C6_tally_algebra (h t h1 t1 h2 t2 : Nat) :
    (t = 0 → TypeCoverage.ratio ⟨h, t⟩ = 1) ∧
    (0 < t → TypeCoverage.ratio ⟨h, t⟩ = (h : ℚ) / (t : ℚ)) ∧
    TypeCoverage.mul ⟨h1, t1⟩ ⟨h2, t2⟩ = ⟨h1 * h2, t1 * t2⟩ ∧
    TypeCoverage.add ⟨h1, t1⟩ ⟨h2, t2⟩ = ⟨h1 + h2, t1 + t2⟩ := by
  refine ⟨?_, ?_, rfl, rfl⟩
  · intro ht; simp [TypeCoverage.ratio, ht]
  · intro ht; simp [TypeCoverage.ratio, ht]

/-- Witness for C6 at concrete tallies. -/
theorem C6_tally_algebra_witness :
    TypeCoverage.ratio ⟨5, 0⟩ = 1 ∧
    TypeCoverage.ratio ⟨1, 2⟩ = (1 : ℚ) / 2 ∧
    TypeCoverage.mul ⟨2, 3⟩ ⟨4, 5⟩ = ⟨8, 15⟩ ∧
    TypeCoverage.add ⟨2, 3⟩ ⟨4, 5⟩ = ⟨6, 8⟩ :=
  ⟨(C6_tally_algebra 5 0 0 0 0 0).1 rfl,
   (C6_tally_algebra 1 2 0 0 0 0).2.1 (by decide),
   (C6_tally_algebra 0 0 2 3 4 5).2.2.1,
   (C6_tally_algebra 0 0 2 3 4 5).2.2.2⟩

/-- C1 counterexample: `NeverAnnotation.analyze_coverage` in return position
with an observed unwind witness yields `(1, 1)`, not the `(1, 0)` the claim
states. -/
theorem C1_counterexample :
    TypeAnnot.neverAnnot.analyze_coverage [TypeMatch.neverMatch] true = ⟨1, 1⟩ ∧
    TypeAnnot.neverAnnot.analyze_coverage [TypeMatch.neverMatch] true ≠ ⟨1, 0⟩ :=
  ⟨rfl, by decide⟩

/-- C1 amended: `NeverAnnotation.analyze_coverage` reports `(0, 0)` in
parameter position for every set of witnesses; in return position it reports
`(1, 1)` when an unwind witness was observed and `(0, 1)` when none was, so
a function annotated to return `Never` that always raises has return-coverage
tally `(1, 1)` (ratio `1.0`). -/
theorem C1_never_coverage_amended (ms : List TypeMatch) :
    TypeAnnot.neverAnnot.analyze_coverage ms false = ⟨0, 0⟩ ∧
    (ms = [] → TypeAnnot.neverAnnot.analyze_coverage ms true = ⟨0, 1⟩) ∧
    (ms ≠ [] → TypeAnnot.neverAnnot.analyze_coverage ms true = ⟨1, 1⟩ ∧
      (TypeAnnot.neverAnnot.analyze_coverage ms true).ratio = 1) := by
  refine ⟨rfl, ?_, ?_⟩
  · intro h; subst h; rfl
  · intro h
    have : ms.isEmpty = false := by
      cases ms with
      | nil => exact absurd rfl h
      | cons a l => rfl
    constructor
    · simp [TypeAnnot.analyze_coverage, this]
    · simp [TypeAnnot.analyze_coverage, this, TypeCoverage.ratio]

/-- Witness for C1's amended theorem at an observed unwind witness. -/
theorem C1_never_coverage_amended_witness :
    TypeAnnot.neverAnnot.analyze_coverage [TypeMatch.neverMatch] false = ⟨0, 0⟩ ∧
    TypeAnnot.neverAnnot.analyze_coverage [] true = ⟨0, 1⟩ ∧
    TypeAnnot.neverAnnot.analyze_coverage [TypeMatch.neverMatch] true = ⟨1, 1⟩ :=
  ⟨(C1_never_coverage_amended [TypeMatch.neverMatch]).1,
   (C1_never_coverage_amended []).2.1 rfl,
   ((C1_never_coverage_amended [TypeMatch.neverMatch]).2.2 (by decide)).1⟩

/-- C10: `UnionAnnotation` does not override `match_unwind`, so a union
never matches an unwind — even though `NeverAnnotation` (and `NoAnnotation`)
would match one as a member; in particular `int | Never` never counts an
unwind. -/
theorem C10_union_unwind_never_matches (opts : List TypeAnnot) (exception : PyExc) :
    (TypeAnnot.unionAnnot opts).match_unwind exception = none ∧
    (TypeAnnot.unionAnnot [.instanceAnnot .int, .neverAnnot]).match_unwind exception = none ∧
    TypeAnnot.neverAnnot.match_unwind exception = some .neverMatch ∧
    TypeAnnot.noAnnot.match_unwind exception = some .noAnnotMatch :=
  ⟨rfl, rfl, rfl, rfl⟩

/-- C8: parsing is deterministic: equal annotation values parse to schema
trees that are structurally equal (both as Lean equality and under the
schemas' structural-equality relation `TypeAnnot.beq`), and equal schema
trees match every value identically — the property that makes the
schema-to-witness lookup memoizable. -/
theorem C8_parse_deterministic (a1 a2 : Annot) (h : a1 = a2) (v : Value) :
    get_annot a1 = get_annot a2 ∧
    TypeAnnot.beq (get_annot a1) (get_annot a2) = true ∧
    (get_annot a1).matchValue v = (get_annot a2).matchValue v := by
  subst h
  exact ⟨rfl, (TypeAnnot.beq_iff_all.1 _ _).2 rfl, rfl⟩

/-- Witness for C8 at a concrete union annotation. -/
theorem C8_parse_deterministic_witness :
    get_annot (.unionA [.typeA .int, .pyNone]) = get_annot (.unionA [.typeA .int, .pyNone]) ∧
    TypeAnnot.beq (get_annot (.unionA [.typeA .int, .pyNone]))
      (get_annot (.unionA [.typeA .int, .pyNone])) = true ∧
    (get_annot (.unionA [.typeA .int, .pyNone])).matchValue (.intV 42) =
      (get_annot (.unionA [.typeA .int, .pyNone])).matchValue (.intV 42) :=
  C8_parse_deterministic (.unionA [.typeA .int, .pyNone]) (.unionA [.typeA .int, .pyNone]) rfl
    (.intV 42)

/-- C7: `Tracer.__exit__` always performs `set_events(NO_EVENTS)` and
`free_tool_id` (in that order, on every exit path), and its emptiness assert
on the call stack is performed exactly when the propagating exception type is
not `MonitoringCallbackError`. -/
theorem C7_exit_contract {FT Key : Type} (t : Tracer FT Key) (exc_type : Option PyExcClass) :
    (tracerExit t exc_type).1 = [.setEventsNone t.tool_id, .freeToolId t.tool_id] ∧
    (exc_type = some .monitoringCallbackErrorClass → (tracerExit t exc_type).2 = .ok ()) ∧
    (exc_type ≠ some .monitoringCallbackErrorClass →
      ((tracerExit t exc_type).2 = .ok () ↔ t.call_stack = [])) := by
  refine ⟨rfl, ?_, ?_⟩
  · intro h; simp [tracerExit, h]
  · intro h
    simp only [tracerExit, if_pos h]
    by_cases hs : t.call_stack = []
    · simp [hs]
    · simp [hs, List.isEmpty_iff]

/-- Witness for C7: a concrete tracer with a nonempty call stack, torn down
without and with a propagating `MonitoringCallbackError`. -/
theorem C7_exit_contract_witness :
    (@tracerExit Unit Unit
      ⟨⟨"s", "e", 0⟩, ⟨"s", "x", 1⟩, 2, [(⟨"p", "f", 3⟩, none, none)], [], []⟩ none).2 ≠ .ok () ∧
    (@tracerExit Unit Unit
      ⟨⟨"s", "e", 0⟩, ⟨"s", "x", 1⟩, 2, [(⟨"p", "f", 3⟩, none, none)], [], []⟩
      (some .monitoringCallbackErrorClass)).2 = .ok () := by
  constructor
  · intro hok
    have := ((@C7_exit_contract Unit Unit
      ⟨⟨"s", "e", 0⟩, ⟨"s", "x", 1⟩, 2, [(⟨"p", "f", 3⟩, none, none)], [], []⟩ none).2.2
      (by simp)).mp hok
    simp at this
  · exact (@C7_exit_contract Unit Unit
      ⟨⟨"s", "e", 0⟩, ⟨"s", "x", 1⟩, 2, [(⟨"p", "f", 3⟩, none, none)], [], []⟩
      (some .monitoringCallbackErrorClass)).2.1 rfl

/-- C3: parsing is total with a universal catch-all, recognizing in priority
order the absence of an annotation (`NoAnnotation`, checked by
`Overload._get_param_annotation` before `get_annotation` is called), the
null-type markers `None`/`NoneType` (before the class test, so `NoneType`
never becomes an `InstanceAnnotation`), `Any`, the `Never`/`NoReturn`
markers, unions (recursing into each member), then the concrete-class test,
and `UnknownAnnotation` for every remaining input; being a total function,
it never fails. -/
theorem C3_parse_total_priority (t : PyType) (args : List Annot) (l : String)
    (i : Nat) (p : Param) (ht : t ≠ .noneType) (hp : p.annot = none) :
    get_annot .pyNone = .noneAnnot ∧
    get_annot (.typeA .noneType) = .noneAnnot ∧
    get_annot .anyA = .anyAnnot ∧
    get_annot .neverA = .neverAnnot ∧
    get_annot .noReturnA = .neverAnnot ∧
    get_annot (.unionA args) = .unionAnnot (args.map get_annot) ∧
    get_annot (.typeA t) = .instanceAnnot t ∧
    get_annot .selfA = .unknownAnnot "typing.Self" ∧
    get_annot (.other l) = .unknownAnnot l ∧
    getParamAnnot i p none = .noAnnot := by
  refine ⟨rfl, rfl, rfl, rfl, rfl, ?_, ?_, rfl, rfl, ?_⟩
  · simp [get_annot, get_annot_list_eq_map]
  · cases t <;> simp_all [get_annot]
  · simp [getParamAnnot, hp]

/-- Witness for C3 at a concrete class, union and unannotated parameter. -/
theorem C3_parse_total_priority_witness :
    get_annot .pyNone = .noneAnnot ∧
    get_annot (.typeA .noneType) = .noneAnnot ∧
    get_annot .anyA = .anyAnnot ∧
    get_annot .neverA = .neverAnnot ∧
    get_annot .noReturnA = .neverAnnot ∧
    get_annot (.unionA [.typeA .int, .pyNone]) =
      .unionAnnot ([Annot.typeA .int, Annot.pyNone].map get_annot) ∧
    get_annot (.typeA .int) = .instanceAnnot .int ∧
    get_annot .selfA = .unknownAnnot "typing.Self" ∧
    get_annot (.other "list[int]") = .unknownAnnot "list[int]" ∧
    getParamAnnot 0 ⟨"x", none⟩ none = .noAnnot :=
  C3_parse_total_priority .int [.typeA .int, .pyNone] "list[int]" 0 ⟨"x", none⟩
    (by decide) rfl

theorem matchOptions_first (opts : List TypeAnnot) (v : Value) :
    ∀ (i : Nat) (hi : i < opts.length) (m : TypeMatch),
    (∀ j (hj : j < opts.length), j < i → (opts.get ⟨j, hj⟩).matchValue v = none) →
    (opts.get ⟨i, hi⟩).matchValue v = some m →
    matchOptions opts v = some (.unionMatch (opts.get ⟨i, hi⟩) m) := by
  induction opts with
  | nil => intro i hi; simp at hi
  | cons o rest ih =>
    intro i hi m hfirst hmatch
    cases i with
    | zero =>
      simp only [List.get] at hmatch ⊢
      simp [matchOptions, hmatch]
    | succ n =>
      have h0 : o.matchValue v = none := hfirst 0 (by simp) (Nat.succ_pos n)
      simp only [List.get] at hmatch ⊢
      simp only [matchOptions, h0]
      exact ih n (by simpa using hi) m
        (fun j hj hji => hfirst (j + 1) (by simpa using hj) (by omega)) hmatch

/-- C4: `UnionAnnotation.match` tries its members in declared order and
returns the first matching member's witness: if every member before index
`i` fails on `v` and member `i` matches with witness `m`, the union returns
`UnionAnnotation.Match(member i, m)`. -/
theorem C4_union_first_match_wins (opts : List TypeAnnot) (v : Value) (i : Nat)
    (hi : i < opts.length) (m : TypeMatch)
    (hfirst : ∀ j (hj : j < opts.length), j < i → (opts.get ⟨j, hj⟩).matchValue v = none)
    (hmatch : (opts.get ⟨i, hi⟩).matchValue v = some m) :
    (TypeAnnot.unionAnnot opts).matchValue v = some (.unionMatch (opts.get ⟨i, hi⟩) m) := by
  simpa [TypeAnnot.matchValue] using matchOptions_first opts v i hi m hfirst hmatch

/-- Witness for C4: `int | str` against a value that is an instance of both
`int` and `str` — the earlier-declared member `int` wins the tie. -/
theorem C4_union_first_match_wins_witness :
    (TypeAnnot.unionAnnot [.instanceAnnot .int, .instanceAnnot .str]).matchValue
      (.objV [.int, .str]) =
      some (.unionMatch (.instanceAnnot .int) (.instanceMatch .int)) := by
  have := C4_union_first_match_wins [.instanceAnnot .int, .instanceAnnot .str]
    (.objV [.int, .str]) 0 (by decide) (.instanceMatch .int)
    (fun j hj hji => by omega) (by decide)
  simpa using this

theorem selectOverload_first (os : List Overload) (f : Frame) :
    ∀ (i : Nat) (hi : i < os.length) (ms : List TypeMatch),
    (∀ j (hj : j < os.length), j < i → (os.get ⟨j, hj⟩).matchFrame f = none) →
    (os.get ⟨i, hi⟩).matchFrame f = some ms →
    selectOverload os f = some (os.get ⟨i, hi⟩, ms) := by
  induction os with
  | nil => intro i hi; simp at hi
  | cons o rest ih =>
    intro i hi ms hfirst hmatch
    cases i with
    | zero =>
      simp only [List.get] at hmatch ⊢
      simp [selectOverload, hmatch]
    | succ n =>
      have h0 : o.matchFrame f = none := hfirst 0 (by simp) (Nat.succ_pos n)
      simp only [List.get] at hmatch ⊢
      simp only [selectOverload, h0]
      exact ih n (by simpa using hi) ms
        (fun j hj hji => hfirst (j + 1) (by simpa using hj) (by omega)) hmatch

theorem selectOverload_none (os : List Overload) (f : Frame) :
    (∀ j (hj : j < os.length), (os.get ⟨j, hj⟩).matchFrame f = none) →
    selectOverload os f = none := by
  induction os with
  | nil => intro; rfl
  | cons o rest ih =>
    intro hall
    have h0 : o.matchFrame f = none := hall 0 (by simp)
    simp only [selectOverload, h0]
    exact ih fun j hj => by
      have := hall (j + 1) (by simpa using hj)
      simpa [List.get] using this

/-- C5: overload resolution is order-sensitive and short-circuiting: among a
tracer's declared overloads (the keys of `matched_calls`, in declaration
order), `on_start` returns the first overload whose every parameter schema
matches the correspondingly-named bound argument, together with its
witnesses; a single failing parameter fails the whole overload regardless of
the remaining parameters; and when no overload matches, the key carries the
rendered argument string, which `on_return` records in the unmatched bucket
rather than dropping. -/
theorem C5_overload_resolution (ft : FuncTracer) (frame : Frame) (i : Nat)
    (ms : List TypeMatch) (s : String) (retval : Value) (name : String)
    (ann : TypeAnnot) (rest : List (String × TypeAnnot)) :
    (∀ (hi : i < ft.overloads.length),
      (∀ j (hj : j < ft.overloads.length), j < i →
        (ft.overloads.get ⟨j, hj⟩).matchFrame frame = none) →
      (ft.overloads.get ⟨i, hi⟩).matchFrame frame = some ms →
      ft.on_start frame = .matched (ft.overloads.get ⟨i, hi⟩) ms) ∧
    ((∀ j (hj : j < ft.overloads.length),
        (ft.overloads.get ⟨j, hj⟩).matchFrame frame = none) →
      ft.on_start frame = .unmatched (renderArgs frame)) ∧
    (ann.matchValue (frame.getLocal name) = none →
      matchParamList ((name, ann) :: rest) frame = none) ∧
    ft.on_return (.unmatched s) retval =
      .ok { ft with
            unmatched_calls :=
              setInsert ft.unmatched_calls (s, "return", retval.reprStr) } := by
  refine ⟨?_, ?_, ?_, rfl⟩
  · intro hi hfirst hmatch
    simp only [FuncTracer.on_start]
    rw [selectOverload_first ft.overloads frame i hi ms hfirst hmatch]
  · intro hall
    simp only [FuncTracer.on_start]
    rw [selectOverload_none ft.overloads frame hall]
  · intro hfail
    simp [matchParamList, hfail]

/-- Witness for C5: the spec's example — overloads `(int) -> str` then
`(object) -> str`, called with an integer: the first overload wins (an
integer also satisfies `object`, but that overload is never reached); and an
unmatched call is recorded with its rendered arguments. -/
theorem C5_overload_resolution_witness :
    FuncTracer.on_start
      ⟨[(⟨["x"], [.instanceAnnot .int], .instanceAnnot .str⟩, []),
        (⟨["x"], [.instanceAnnot .object], .instanceAnnot .str⟩, [])], []⟩
      ⟨⟨"prog.py", "f", 7⟩, [("x", .intV 5)]⟩ =
      .matched ⟨["x"], [.instanceAnnot .int], .instanceAnnot .str⟩ [.instanceMatch .int] ∧
    FuncTracer.on_return (⟨[], []⟩ : FuncTracer) (.unmatched "x=\x27bad\x27") (.strV "bad") =
      .ok ⟨[], [("x=\x27bad\x27", "return", "\x27bad\x27")]⟩ := by
  constructor
  · have h := (C5_overload_resolution
      ⟨[(⟨["x"], [.instanceAnnot .int], .instanceAnnot .str⟩, []),
        (⟨["x"], [.instanceAnnot .object], .instanceAnnot .str⟩, [])], []⟩
      ⟨⟨"prog.py", "f", 7⟩, [("x", .intV 5)]⟩ 0 [.instanceMatch .int] "" .pyNone ""
      .noAnnot []).1 (by decide)
      (fun j hj hji => absurd hji (Nat.not_lt_zero j)) (by decide)
    simpa using h
  · have h := (C5_overload_resolution (⟨[], []⟩ : FuncTracer) ⟨⟨"p", "f", 0⟩, []⟩ 0 []
      "x=\x27bad\x27" (.strV "bad") "" .noAnnot []).2.2.2
    simpa [setInsert, Value.reprStr] using h

theorem setInsert_idem {α : Type} [DecidableEq α] (l : List α) (x : α) :
    setInsert (setInsert l x) x = setInsert l x := by
  by_cases h : x ∈ l
  · simp [setInsert, h]
  · simp [setInsert, h]

theorem recordMatched_idem :
    ∀ (mc mc' : List (Overload × List CallEntry)) (o : Overload) (e : CallEntry),
    recordMatched mc o e = some mc' → recordMatched mc' o e = some mc' := by
  intro mc
  induction mc with
  | nil => intro mc' o e h; simp [recordMatched] at h
  | cons hd rest ih =>
    intro mc' o e h
    obtain ⟨o', rec⟩ := hd
    by_cases ho : o' = o
    · simp only [recordMatched, if_pos ho, Option.some.injEq] at h
      subst h
      simp [recordMatched, if_pos ho, setInsert_idem]
    · simp only [recordMatched, if_neg ho, Option.map_eq_some'] at h
      obtain ⟨rest', hrest, hmc⟩ := h
      subst hmc
      simp [recordMatched, if_neg ho, ih rest' o e hrest]

/-- `match_unwind` never inspects the exception object itself: its result
depends only on the annotation. -/
theorem match_unwind_const (a : TypeAnnot) (e1 e2 : PyExc) :
    a.match_unwind e1 = a.match_unwind e2 := by
  cases a <;> rfl

/-- C9: record appending is idempotent: repeating `on_return` with the same
key and return value, or `on_unwind` with the same key and an
identically-represented exception, leaves the tracer's records exactly as
after the first invocation (the `dict`-as-set semantics deduplicate). -/
theorem C9_record_idempotent (ft ft' : FuncTracer) (key : StartKey) (retval : Value)
    (e1 e2 : PyExc) (hrepr : e1.reprStr = e2.reprStr) :
    (FuncTracer.on_return ft key retval = .ok ft' →
      FuncTracer.on_return ft' key retval = .ok ft') ∧
    (FuncTracer.on_unwind ft key e1 = .ok ft' →
      FuncTracer.on_unwind ft' key e2 = .ok ft') := by
  constructor
  · intro h
    cases key with
    | matched o ms =>
      simp only [FuncTracer.on_return] at h ⊢
      cases hrec : recordMatched ft.matched_calls o (ms, o.return_annot.matchValue retval, none) with
      | none => rw [hrec] at h; exact absurd h (by simp)
      | some mc' =>
        rw [hrec] at h
        simp only [Except.ok.injEq] at h
        subst h
        simp only []
        rw [recordMatched_idem ft.matched_calls mc' o _ hrec]
    | unmatched s =>
      simp only [FuncTracer.on_return, Except.ok.injEq] at h ⊢
      subst h
      simp [setInsert_idem]
  · intro h
    cases key with
    | matched o ms =>
      simp only [FuncTracer.on_unwind] at h ⊢
      rw [match_unwind_const o.return_annot e2 e1, ← hrepr]
      cases hrec : recordMatched ft.matched_calls o
        (ms, o.return_annot.match_unwind e1, some e1.reprStr) with
      | none => rw [hrec] at h; exact absurd h (by simp)
      | some mc' =>
        rw [hrec] at h
        simp only [Except.ok.injEq] at h
        subst h
        simp only []
        rw [recordMatched_idem ft.matched_calls mc' o _ hrec]
    | unmatched s =>
      simp only [FuncTracer.on_unwind, Except.ok.injEq] at h ⊢
      subst h
      rw [← hrepr]
      simp [setInsert_idem]

/-- Witness for C9: repeating a recorded matched return and a recorded
unmatched unwind leaves the records unchanged. -/
theorem C9_record_idempotent_witness :
    FuncTracer.on_return
      ⟨[(⟨["x"], [.anyAnnot], .noneAnnot⟩, [([.anyMatch], some .noneMatch, none)])], []⟩
      (.matched ⟨["x"], [.anyAnnot], .noneAnnot⟩ [.anyMatch]) .pyNone =
      .ok ⟨[(⟨["x"], [.anyAnnot], .noneAnnot⟩, [([.anyMatch], some .noneMatch, none)])], []⟩ ∧
    FuncTracer.on_unwind (⟨[], [("x=5", "unwind", "ValueError(boom)")]⟩ : FuncTracer)
      (.unmatched "x=5") (.progExc "ValueError" "boom") =
      .ok ⟨[], [("x=5", "unwind", "ValueError(boom)")]⟩ := by
  constructor
  · exact (C9_record_idempotent
      ⟨[(⟨["x"], [.anyAnnot], .noneAnnot⟩, [])], []⟩
      ⟨[(⟨["x"], [.anyAnnot], .noneAnnot⟩, [([.anyMatch], some .noneMatch, none)])], []⟩
      (.matched ⟨["x"], [.anyAnnot], .noneAnnot⟩ [.anyMatch]) .pyNone
      (.progExc "e" "m") (.progExc "e" "m") rfl).1 rfl
  · exact (C9_record_idempotent (⟨[], []⟩ : FuncTracer)
      ⟨[], [("x=5", "unwind", "ValueError(boom)")]⟩
      (.unmatched "x=5") .pyNone
      (.progExc "ValueError" "boom") (.progExc "ValueError" "boom") rfl).2 rfl

/-- C2 amended: failures of class `Exception` raised inside the enter
callback (`_start_callback`) and the normal-exit callback
(`_return_callback`) are wrapped and re-raised as `MonitoringCallbackError`;
the exceptional-exit callback (`_unwind_callback`) has no such wrapper, so
its internal failures (a pop from an empty call stack, the identity
assertion, or an error from `on_unwind`) propagate unwrapped. -/
theorem C2_internal_failure_isolation_amended {FT : Type} {Key : Type}
    (env : Env FT Key) (t : Tracer FT Key) (code : Code) (retval : Value)
    (exception : PyExc) (e : PyExc) :
    (startCallbackBody env t code = .error e → e.isException = true →
      startCallback env t code = .error (.monitoringCallbackError e)) ∧
    (returnCallbackBody env t code retval = .error e → e.isException = true →
      returnCallback env t code retval = .error (.monitoringCallbackError e)) ∧
    (exception.isMCE = false → env.should_trace code.filename = .ok true →
      unwindCallbackInner env t code exception = .error e →
      unwindCallback env t code exception = .error e) := by
  refine ⟨?_, ?_, ?_⟩
  · intro h he
    simp [startCallback, wrapCallback, h, he]
  · intro h he
    simp [returnCallback, wrapCallback, h, he]
  · intro hm hs hi
    simp [unwindCallback, hm, hs, hi, bind, Except.bind]

/-- The concrete environment used in the C2 theorems: every hook succeeds
trivially and every file is traced. -/
def envC2 : Env Unit Unit where
  should_trace := fun _ => .ok true
  on_start := fun _ _ => .ok ()
  on_return := fun _ _ _ => .ok ()
  on_unwind := fun _ _ _ => .ok ()
  getModuleName := fun _ => none
  frameOf := fun c => ⟨c, []⟩
  resolveObj := fun _ => .ok none

/-- The concrete tracer state used in the C2 theorems: freshly activated,
with an empty call stack. -/
def tracerC2 : Tracer Unit Unit :=
  ⟨⟨"sysmon.py", "Tracer.__enter__", 100⟩, ⟨"sysmon.py", "Tracer.__exit__", 101⟩, 0, [], [], []⟩

/-- C2 counterexample: with an empty call stack, an unwind event for
ordinary traced code makes `_unwind_callback`'s own pop raise `IndexError`,
which escapes unwrapped (not as `MonitoringCallbackError`) — while the very
same internal failure inside `_return_callback` does come out wrapped. -/
theorem C2_counterexample :
    unwindCallback envC2 tracerC2 ⟨"prog.py", "f", 0⟩ (PyExc.progExc "ValueError" "boom") =
      .error .indexError ∧
    PyExc.isMCE .indexError = false ∧
    returnCallback envC2 tracerC2 ⟨"prog.py", "f", 0⟩ .pyNone =
      .error (.monitoringCallbackError .indexError) :=
  ⟨rfl, rfl, rfl⟩

/-- Witness for C2's amended theorem: the empty-stack internal failure is
wrapped on the return path and unwrapped on the unwind path. -/
theorem C2_internal_failure_isolation_amended_witness :
    returnCallback envC2 tracerC2 ⟨"prog.py", "g", 1⟩ .pyNone =
      .error (.monitoringCallbackError .indexError) ∧
    unwindCallback envC2 tracerC2 ⟨"prog.py", "g", 1⟩ (PyExc.progExc "KeyError" "k") =
      .error .indexError :=
  ⟨(C2_internal_failure_isolation_amended envC2 tracerC2 ⟨"prog.py", "g", 1⟩ .pyNone
      (.progExc "KeyError" "k") .indexError).2.1 rfl rfl,
   (C2_internal_failure_isolation_amended envC2 tracerC2 ⟨"prog.py", "g", 1⟩ .pyNone
      (.progExc "KeyError" "k") .indexError).2.2 rfl rfl rfl⟩
